import Mathlib

/-!
# Window-state persistence and reachability-gated loading

A shallow embedding of the persistence and startup logic of the MonkeyType
desktop shell (`src/main.ts` and its fs-based variant):

* `getWindowState` / `saveWindowState` — the WindowStateStore, reading and
  writing `window-state.json` through `fs.existsSync` / `fs.readFileSync` /
  `JSON.parse` / `fs.writeFileSync`, all modelled by explicit state passing
  over an abstract `FileState`.
* `createWindow` — the startup sequence, modelled as the list of host-API
  actions it performs, and a small interpreter `runTrace` over those actions.
-/

/-- JSON values as `JSON.parse` produces them.  An object is an association
list; a value produced by a real parser has distinct keys, and `jlookup`
takes the last binding of a repeated key as ECMA-262 does, so the model is
faithful either way. -/
inductive Json : Type
  | null : Json
  | bool : Bool → Json
  | num : Int → Json
  | str : String → Json
  | arr : List Json → Json
  | obj : List (String × Json) → Json

/-- Last binding of `key` in an object's field list (later keys win, as in
JavaScript object spread). -/
def jlookup : List (String × Json) → String → Option Json
  | [], _ => none
  | (k, v) :: rest, key =>
    match jlookup rest key with
    | some v2 => some v2
    | none => if k = key then some v else none

/-- JavaScript truthiness of a JSON value, as tested by
`if (windowState.isMaximized)`. -/
def Json.truthy : Json → Bool
  | .null => false
  | .bool b => b
  | .num n => n != 0
  | .str s => s != ""
  | .arr _ => true
  | .obj _ => true

/-- Whether a JSON value is an object. -/
def Json.isObj : Json → Bool
  | .obj _ => true
  | _ => false

/-- Whether a JSON value is a positive integer. -/
def Json.isPosInt : Json → Bool
  | .num n => decide (0 < n)
  | _ => false

/-- Observable state of the persisted `window-state.json` file, abstracted to
the outcome of the read pipeline on it: the file may be missing
(`existsSync` is false), unreadable (`readFileSync` throws), malformed
(`JSON.parse` throws), or parse to a JSON value. -/
inductive FileState : Type
  | missing : FileState
  | unreadable : FileState
  | invalid : FileState
  | parses : Json → FileState

/-- The five `WindowState` fields of the object `createWindow` receives from
`getWindowState`, holding the JSON values actually stored there: the
TypeScript annotation is not checked at runtime, so any JSON value can sit
in any field. -/
structure WindowStateJs : Type where
  width : Json
  height : Json
  x : Option Json
  y : Option Json
  isMaximized : Json

/-- `defaultWindowState`: width 992, height 600, unmaximized, no position. -/
def defaultWindowState : WindowStateJs :=
  { width := Json.num 992
    height := Json.num 600
    x := none
    y := none
    isMaximized := Json.bool false }

/-- The spread `{ ...defaultWindowState, ...parsed }`, projected to the five
`WindowState` fields.  Spreading an object overrides field by field;
spreading `null`, a boolean or a number contributes no properties, and
spreading a string or an array contributes only numeric-index properties,
none of which is a `WindowState` field — so for every non-object the five
fields keep their defaults. -/
def spreadDefault : Json → WindowStateJs
  | Json.obj fields =>
    { width := (jlookup fields "width").getD defaultWindowState.width
      height := (jlookup fields "height").getD defaultWindowState.height
      x := jlookup fields "x"
      y := jlookup fields "y"
      isMaximized := (jlookup fields "isMaximized").getD defaultWindowState.isMaximized }
  | _ => defaultWindowState

/-- `fs.existsSync(CONFIG_FILE)`: a pure read of the file state. -/
def existsSync : FileState → Bool × FileState
  | FileState.missing => (false, FileState.missing)
  | fs => (true, fs)

/-- `fs.readFileSync(CONFIG_FILE, "utf-8")` followed by `JSON.parse`: a read
that throws on an unreadable file or malformed text, and in every case
leaves the file as it found it. -/
def readParse : FileState → Except String Json × FileState
  | FileState.missing => (Except.error "ENOENT", FileState.missing)
  | FileState.unreadable => (Except.error "EIO", FileState.unreadable)
  | FileState.invalid => (Except.error "SyntaxError", FileState.invalid)
  | FileState.parses j => (Except.ok j, FileState.parses j)

/-- `getWindowState`, threading the file state to make its frame effect
explicit.  The `try` block checks existence, reads, parses and merges over
the default; the `catch` logs and falls through; a missing file or a caught
error returns `defaultWindowState`. -/
def getWindowStateM (fs : FileState) : WindowStateJs × FileState :=
  let p := existsSync fs
  if p.1 then
    match readParse p.2 with
    | (Except.ok j, fs2) => (spreadDefault j, fs2)
    | (Except.error _, fs2) => (defaultWindowState, fs2)
  else
    (defaultWindowState, p.2)

/-- The value `getWindowState` returns. -/
def getWindowState (fs : FileState) : WindowStateJs :=
  (getWindowStateM fs).1

/-- The bounds rectangle `mainWindow.getBounds()` reports. -/
structure Bounds : Type where
  x : Int
  y : Int
  width : Int
  height : Int

/-- The live window handle as `saveWindowState` queries it:
`getBounds()` and `isMaximized()`. -/
structure BrowserWindowHandle : Type where
  bounds : Bounds
  maximized : Bool

/-- The full state object `saveWindowState` assembles: all five fields
present, `x` and `y` always taken from the live bounds. -/
structure SavedState : Type where
  width : Int
  height : Int
  x : Int
  y : Int
  isMaximized : Bool

/-- The state captured from the live window at save time. -/
def captureState (w : BrowserWindowHandle) : SavedState :=
  { width := w.bounds.width
    height := w.bounds.height
    x := w.bounds.x
    y := w.bounds.y
    isMaximized := w.maximized }

/-- The JSON value `JSON.stringify(state, null, 2)` serializes — equally,
what `JSON.parse` recovers from the written file. -/
def stateJson (s : SavedState) : Json :=
  Json.obj
    [("width", Json.num s.width), ("height", Json.num s.height),
     ("x", Json.num s.x), ("y", Json.num s.y),
     ("isMaximized", Json.bool s.isMaximized)]

/-- Outcome of one attempted file write: the host either replaces the file
content or throws. -/
inductive WriteOutcome : Type
  | success : WriteOutcome
  | failure : WriteOutcome

/-- `fs.writeFileSync(CONFIG_FILE, text)`: atomically replaces the content
with the serialized value, or throws leaving the previous content in
place. -/
def writeFileSync : WriteOutcome → Json → FileState → Except String FileState
  | WriteOutcome.success, j, _ => Except.ok (FileState.parses j)
  | WriteOutcome.failure, _, _ => Except.error "EIO"

/-- What a call to `saveWindowState` does: the file state it leaves behind,
how many write calls it issued, and the exception it let escape to its
caller, if any. -/
structure SaveResult : Type where
  fs : FileState
  writeAttempts : Nat
  raised : Option String

/-- `saveWindowState`: returns immediately when the window handle is unset
(`if (!mainWindow) return`); otherwise captures the live state and writes it
once inside `try`/`catch`, so a throwing write is logged (`console.error`)
and swallowed, never rethrown and never retried. -/
def saveWindowState (win : Option BrowserWindowHandle) (outcome : WriteOutcome)
    (fs : FileState) : SaveResult :=
  match win with
  | none => { fs := fs, writeAttempts := 0, raised := none }
  | some w =>
    match writeFileSync outcome (stateJson (captureState w)) fs with
    | Except.ok fs2 => { fs := fs2, writeAttempts := 1, raised := none }
    | Except.error _ => { fs := fs, writeAttempts := 1, raised := none }

/-- `const URL = "https://monkeytype.com/"`. -/
def URL : String := "https://monkeytype.com/"

/-- `const OFFLINE_URL = "offline.html"`. -/
def OFFLINE_URL : String := "offline.html"

/-- Outcome of `await isOnline()`: the promise resolves to a boolean or
rejects. -/
inductive ProbeResult : Type
  | ok : Bool → ProbeResult
  | throws : ProbeResult

/-- The host-API actions `createWindow` performs, in order. -/
inductive ShellAction : Type
  | createWin : Json → Json → Option Json → Option Json → ShellAction
  | maximizeWin : ShellAction
  | addListener : String → ShellAction
  | showWhenReady : ShellAction
  | loadRemote : String → ShellAction
  | loadLocal : String → ShellAction

/-- `createWindow` as the sequence of actions it performs: construct the
`BrowserWindow` with the loaded geometry, maximize afterwards if the loaded
flag is truthy, register the three save listeners, arm show-on-ready, then
`await isOnline()` and load the remote URL or the offline file.  There is no
`try`/`catch` around the await: a rejecting probe aborts `createWindow`
before any load call, so no content source is set in that case. -/
def createWindow (fs : FileState) (probe : ProbeResult) : List ShellAction :=
  let windowState := getWindowState fs
  [ShellAction.createWin windowState.width windowState.height
      windowState.x windowState.y]
    ++ (if windowState.isMaximized.truthy then [ShellAction.maximizeWin] else [])
    ++ [ShellAction.addListener "resize", ShellAction.addListener "move",
        ShellAction.addListener "close", ShellAction.showWhenReady]
    ++ (match probe with
        | ProbeResult.ok true => [ShellAction.loadRemote URL]
        | ProbeResult.ok false => [ShellAction.loadLocal OFFLINE_URL]
        | ProbeResult.throws => [])

/-- The content source a window ends up with. -/
inductive ContentSource : Type
  | remote : String → ContentSource
  | localFile : String → ContentSource

/-- The content source a single action sets, if any. -/
def actionContent : ShellAction → Option ContentSource
  | ShellAction.loadRemote u => some (ContentSource.remote u)
  | ShellAction.loadLocal p => some (ContentSource.localFile p)
  | _ => none

/-- The first content source a trace sets, if any. -/
def contentOf : List ShellAction → Option ContentSource
  | [] => none
  | a :: rest =>
    match actionContent a with
    | some c => some c
    | none => contentOf rest

/-- Observable window model for interpreting a trace: current geometry and
maximized flag. -/
structure WinModel : Type where
  width : Json
  height : Json
  x : Option Json
  y : Option Json
  maximized : Bool

/-- One action applied to the (possibly not-yet-created) window. -/
def stepAction : Option WinModel → ShellAction → Option WinModel
  | none, ShellAction.createWin w h px py =>
    some { width := w, height := h, x := px, y := py, maximized := false }
  | some m, ShellAction.maximizeWin => some { m with maximized := true }
  | st, _ => st

/-- Run a trace from "no window yet". -/
def runTrace (t : List ShellAction) : Option WinModel :=
  t.foldl stepAction none

/-- C5: with no persisted file, `getWindowState` returns exactly the default
record — width 992, height 600, unmaximized — with neither `x` nor `y`
present. -/
theorem getWindowState_missing_default :
    getWindowState FileState.missing =
      { width := Json.num 992, height := Json.num 600, x := none, y := none,
        isMaximized := Json.bool false } := rfl

/-- C3: file content that is malformed (`JSON.parse` throws), unreadable, or
parses to a non-object value all make `getWindowState` return the default
record, exactly the result for a missing file; the function is total, so
nothing is raised to the caller. -/
theorem getWindowState_malformed_default :
    getWindowState FileState.invalid = defaultWindowState ∧
    getWindowState FileState.unreadable = defaultWindowState ∧
    (∀ j : Json, j.isObj = false →
      getWindowState (FileState.parses j) = defaultWindowState) ∧
    getWindowState FileState.missing = defaultWindowState := by
  refine ⟨rfl, rfl, ?_, rfl⟩
  intro j h
  cases j <;> simp [Json.isObj] at h <;> rfl

/-- Witness for C3 at the concrete non-object content `7`. -/
theorem getWindowState_malformed_default_witness :
    getWindowState (FileState.parses (Json.num 7)) = defaultWindowState :=
  getWindowState_malformed_default.2.2.1 (Json.num 7) rfl

/-- C9: with no live window handle, `saveWindowState` returns immediately:
the persisted file is unchanged and no write is attempted, whatever a write
would have done. -/
theorem saveWindowState_no_window (outcome : WriteOutcome) (fs : FileState) :
    saveWindowState none outcome fs =
      { fs := fs, writeAttempts := 0, raised := none } := rfl

/-- C10: `getWindowState` is read-only: for every persisted-file content —
missing, unreadable, malformed or parsed — it leaves the file exactly as it
found it. -/
theorem getWindowState_read_only (fs : FileState) :
    (getWindowStateM fs).2 = fs := by
  cases fs <;> rfl

/-- C8: for every window handle and every outcome of the underlying write,
`saveWindowState` raises nothing to its caller, issues at most one write
call, and a failing write leaves the persisted file as it was. -/
theorem saveWindowState_never_raises (win : Option BrowserWindowHandle)
    (outcome : WriteOutcome) (fs : FileState) :
    (saveWindowState win outcome fs).raised = none ∧
    (saveWindowState win outcome fs).writeAttempts ≤ 1 ∧
    (saveWindowState win WriteOutcome.failure fs).fs = fs := by
  refine ⟨?_, ?_, ?_⟩ <;>
    cases win <;> cases outcome <;> simp [saveWindowState, writeFileSync]

/-- C6 fails as stated: `getWindowState` merges the parsed object without any
validation, so the persisted content `{"width": 0}` makes it return a record
whose width is 0 — not a positive integer. -/
theorem getWindowState_width_not_always_positive :
    (getWindowState (FileState.parses (Json.obj [("width", Json.num 0)]))).width
        = Json.num 0 ∧
    Json.isPosInt
      (getWindowState (FileState.parses (Json.obj [("width", Json.num 0)]))).width
        = false :=
  ⟨rfl, rfl⟩

/-- Whether an optional override for width or height keeps positivity: absent,
or a positive integer. -/
def posOverride : Option Json → Bool
  | none => true
  | some (Json.num n) => decide (0 < n)
  | some _ => false

/-- Whether a persisted-file content can only produce positive width and
height: anything but a parsed object, or a parsed object whose width and
height overrides (when present) are positive integers. -/
def widthHeightSafe : FileState → Bool
  | FileState.parses (Json.obj fields) =>
    posOverride (jlookup fields "width") && posOverride (jlookup fields "height")
  | _ => true

/-- C6 amended: for every persisted-file content whose width and height
overrides, when present in a parsed object, are positive integers, the
record `getWindowState` returns has positive-integer width and height. -/
theorem getWindowState_positive_of_safe (fs : FileState)
    (h : widthHeightSafe fs = true) :
    Json.isPosInt (getWindowState fs).width = true ∧
    Json.isPosInt (getWindowState fs).height = true := by
  cases fs with
  | missing => exact ⟨rfl, rfl⟩
  | unreadable => exact ⟨rfl, rfl⟩
  | invalid => exact ⟨rfl, rfl⟩
  | parses j =>
    cases j with
    | obj fields =>
      rw [widthHeightSafe, Bool.and_eq_true] at h
      obtain ⟨hw, hh⟩ := h
      constructor
      · show Json.isPosInt ((jlookup fields "width").getD defaultWindowState.width) = true
        cases hw2 : jlookup fields "width" with
        | none => rfl
        | some v =>
          rw [hw2] at hw
          cases v <;> simp_all [posOverride, Json.isPosInt, Option.getD]
      · show Json.isPosInt ((jlookup fields "height").getD defaultWindowState.height) = true
        cases hh2 : jlookup fields "height" with
        | none => rfl
        | some v =>
          rw [hh2] at hh
          cases v <;> simp_all [posOverride, Json.isPosInt, Option.getD]
    | null => exact ⟨rfl, rfl⟩
    | bool b => exact ⟨rfl, rfl⟩
    | num n => exact ⟨rfl, rfl⟩
    | str s => exact ⟨rfl, rfl⟩
    | arr xs => exact ⟨rfl, rfl⟩

/-- Witness for the amended C6 at the concrete content `{"width": 50}`. -/
theorem getWindowState_positive_of_safe_witness :
    Json.isPosInt
      (getWindowState (FileState.parses (Json.obj [("width", Json.num 50)]))).width
        = true ∧
    Json.isPosInt
      (getWindowState (FileState.parses (Json.obj [("width", Json.num 50)]))).height
        = true :=
  getWindowState_positive_of_safe
    (FileState.parses (Json.obj [("width", Json.num 50)])) rfl

/-- C4: a persisted well-formed object overrides the default record field by
field — every absent field keeps its default value and every present field
takes its stored value — and in particular the content
`{"isMaximized": true}` yields width 992, height 600, no position, and
isMaximized true. -/
theorem getWindowState_partial_merge :
    (∀ fields : List (String × Json),
      (jlookup fields "width" = none →
        (getWindowState (FileState.parses (Json.obj fields))).width = Json.num 992) ∧
      (∀ v, jlookup fields "width" = some v →
        (getWindowState (FileState.parses (Json.obj fields))).width = v) ∧
      (jlookup fields "height" = none →
        (getWindowState (FileState.parses (Json.obj fields))).height = Json.num 600) ∧
      (∀ v, jlookup fields "height" = some v →
        (getWindowState (FileState.parses (Json.obj fields))).height = v) ∧
      (getWindowState (FileState.parses (Json.obj fields))).x = jlookup fields "x" ∧
      (getWindowState (FileState.parses (Json.obj fields))).y = jlookup fields "y" ∧
      (jlookup fields "isMaximized" = none →
        (getWindowState (FileState.parses (Json.obj fields))).isMaximized
          = Json.bool false) ∧
      (∀ v, jlookup fields "isMaximized" = some v →
        (getWindowState (FileState.parses (Json.obj fields))).isMaximized = v)) ∧
    getWindowState (FileState.parses (Json.obj [("isMaximized", Json.bool true)])) =
      { width := Json.num 992, height := Json.num 600, x := none, y := none,
        isMaximized := Json.bool true } := by
  refine ⟨?_, rfl⟩
  intro fields
  refine ⟨fun h => ?_, fun v h => ?_, fun h => ?_, fun v h => ?_, rfl, rfl,
    fun h => ?_, fun v h => ?_⟩ <;>
    simp [getWindowState, getWindowStateM, existsSync, readParse, spreadDefault, h,
      defaultWindowState]

/-- Witness for C4 at the concrete partial content `{"width": 5}`: the
present field overrides and an absent field keeps its default. -/
theorem getWindowState_partial_merge_witness :
    (getWindowState (FileState.parses (Json.obj [("width", Json.num 5)]))).width
        = Json.num 5 ∧
    (getWindowState (FileState.parses (Json.obj [("width", Json.num 5)]))).isMaximized
        = Json.bool false :=
  ⟨(getWindowState_partial_merge.1 [("width", Json.num 5)]).2.1 (Json.num 5) rfl,
   (getWindowState_partial_merge.1 [("width", Json.num 5)]).2.2.2.2.2.2.1 rfl⟩

/-- C2: round-trip.  For a live window whose captured state is valid
(positive width and height; `x` and `y` always captured from the bounds;
boolean maximized flag), a successful `saveWindowState` followed by
`getWindowState` returns exactly the captured state in every field. -/
theorem save_load_round_trip (w : BrowserWindowHandle) (fs : FileState)
    (hw : 0 < w.bounds.width) (hh : 0 < w.bounds.height) :
    getWindowState (saveWindowState (some w) WriteOutcome.success fs).fs =
      { width := Json.num w.bounds.width, height := Json.num w.bounds.height,
        x := some (Json.num w.bounds.x), y := some (Json.num w.bounds.y),
        isMaximized := Json.bool w.maximized } := rfl

/-- Witness for C2 at a concrete window with bounds x 3, y 4, width 800,
height 500, maximized. -/
theorem save_load_round_trip_witness :
    getWindowState
        (saveWindowState (some ⟨⟨3, 4, 800, 500⟩, true⟩)
          WriteOutcome.success FileState.missing).fs =
      { width := Json.num 800, height := Json.num 500, x := some (Json.num 3),
        y := some (Json.num 4), isMaximized := Json.bool true } :=
  save_load_round_trip ⟨⟨3, 4, 800, 500⟩, true⟩ FileState.missing
    (by decide) (by decide)

/-- C1: the reachability gate as the code implements it, for every persisted
file content: a probe resolving `true` sets the content source to the fixed
remote URL, a probe resolving `false` sets it to the local offline file, and
a throwing probe is NOT caught — `await isOnline()` has no `try`/`catch`, the
rejection aborts `createWindow`, and no content source is set at all. -/
theorem createWindow_reachability_gate (fs : FileState) :
    contentOf (createWindow fs (ProbeResult.ok true))
        = some (ContentSource.remote URL) ∧
    contentOf (createWindow fs (ProbeResult.ok false))
        = some (ContentSource.localFile OFFLINE_URL) ∧
    contentOf (createWindow fs ProbeResult.throws) = none := by
  refine ⟨?_, ?_, ?_⟩ <;>
    cases h : (getWindowState fs).isMaximized.truthy <;>
      simp [createWindow, h, contentOf, actionContent]

/-- C7: when the loaded record's `isMaximized` is `true`, `createWindow`
first creates the window with the record's size and (optional) position,
maximizes as the very next action, the window model after creation alone has
the record's geometry and is not yet maximized, and the final model has the
record's geometry with the maximized flag set. -/
theorem createWindow_maximize_ordering (fs : FileState) (probe : ProbeResult)
    (h : (getWindowState fs).isMaximized = Json.bool true) :
    (createWindow fs probe).head? =
      some (ShellAction.createWin (getWindowState fs).width
        (getWindowState fs).height (getWindowState fs).x (getWindowState fs).y) ∧
    ((createWindow fs probe).drop 1).head? = some ShellAction.maximizeWin ∧
    runTrace ((createWindow fs probe).take 1) =
      some ⟨(getWindowState fs).width, (getWindowState fs).height,
        (getWindowState fs).x, (getWindowState fs).y, false⟩ ∧
    runTrace (createWindow fs probe) =
      some ⟨(getWindowState fs).width, (getWindowState fs).height,
        (getWindowState fs).x, (getWindowState fs).y, true⟩ := by
  have ht : (getWindowState fs).isMaximized.truthy = true := by
    rw [h]; rfl
  cases probe with
  | ok b =>
    cases b <;>
      refine ⟨?_, ?_, ?_, ?_⟩ <;>
        simp [createWindow, ht, runTrace, stepAction]
  | throws =>
    refine ⟨?_, ?_, ?_, ?_⟩ <;>
      simp [createWindow, ht, runTrace, stepAction]

/-- Witness for C7 at the concrete persisted content
`{"isMaximized": true}` with a probe resolving `true`. -/
theorem createWindow_maximize_ordering_witness :
    (createWindow (FileState.parses (Json.obj [("isMaximized", Json.bool true)]))
        (ProbeResult.ok true)).head? =
      some (ShellAction.createWin (Json.num 992) (Json.num 600) none none) ∧
    ((createWindow (FileState.parses (Json.obj [("isMaximized", Json.bool true)]))
        (ProbeResult.ok true)).drop 1).head? = some ShellAction.maximizeWin ∧
    runTrace ((createWindow (FileState.parses (Json.obj [("isMaximized", Json.bool true)]))
        (ProbeResult.ok true)).take 1) =
      some ⟨Json.num 992, Json.num 600, none, none, false⟩ ∧
    runTrace (createWindow (FileState.parses (Json.obj [("isMaximized", Json.bool true)]))
        (ProbeResult.ok true)) =
      some ⟨Json.num 992, Json.num 600, none, none, true⟩ :=
  createWindow_maximize_ordering
    (FileState.parses (Json.obj [("isMaximized", Json.bool true)]))
    (ProbeResult.ok true) rfl
